import Mathlib

/-!
Verification development for the rule-of-thirds signal-gathering repository.

The development shallowly embeds the relevance-scoring, ranking, truncation,
simulated-data, trend-extraction and orchestration-aggregation logic of the
three collection agents (`web/src/App.tsx` ExternalSignalsAgent,
`src/agents/internalResearchAgent.ts`, `src/agents/productMetricsAgent.ts`)
and of the orchestrator (`src/orchestrator.ts`) and HTTP entry point.

Modelling conventions:
- JavaScript numbers are modelled as `ℚ` (all arithmetic in the embedded code
  is addition/multiplication/division/comparison of decimal constants, where
  rationals agree with IEEE doubles on every property proved here);
- timestamps are milliseconds-since-epoch as `ℤ`;
- `Math.random()` draws are an explicit stream parameter `rand : Nat → ℚ`;
- the host ECMAScript RegExp engine (an external capability used via
  `new RegExp(...)`) is modelled by an explicit pattern-validity checker plus
  literal/whole-word occurrence counters, see `regexpValid` below;
- fallible JavaScript code (a `new RegExp` call that can throw a SyntaxError)
  returns `Except String _`.
-/

/-! ## String primitives mirroring the JavaScript string API -/

/-- `listHasPrefix sub text`: `sub` is a prefix of `text` (character lists). -/
def listHasPrefix : List Char → List Char → Bool
  | [], _ => true
  | _ :: _, [] => false
  | a :: as, b :: bs => a == b && listHasPrefix as bs

/-- `listContainsSub sub text`: `sub` occurs contiguously in `text`.
Mirrors JavaScript `text.includes(sub)` (true for the empty needle). -/
def listContainsSub (sub : List Char) : List Char → Bool
  | [] => listHasPrefix sub []
  | c :: rest => listHasPrefix sub (c :: rest) || listContainsSub sub rest

/-- JavaScript `s.includes(sub)`. -/
def jsIncludes (s sub : String) : Bool := listContainsSub sub.data s.data

/-- JavaScript `s.toLowerCase()` (ASCII-adequate model). -/
def jsToLower (s : String) : String := String.mk (s.data.map Char.toLower)

/-- JavaScript `s.split(sep)` for a single-character separator: splits at every
occurrence, keeping empty fragments (`"".split(' ') = [""]`). -/
def jsSplitOnChar (c : Char) (s : String) : List String :=
  go s.data []
where
  go : List Char → List Char → List String
    | [], acc => [String.mk acc.reverse]
    | x :: xs, acc =>
      if x == c then String.mk acc.reverse :: go xs [] else go xs (x :: acc)

/-- JavaScript `s.trim()`: strip leading and trailing whitespace. -/
def jsTrim (s : String) : String :=
  String.mk ((s.data.dropWhile Char.isWhitespace).reverse.dropWhile
    Char.isWhitespace).reverse

/-- JavaScript `s.split(/[.!?]+/)`: maximal runs of sentence punctuation act
as one separator (used by `generateFindings`). -/
def splitSentenceRuns (s : String) : List String :=
  go (s.length + 1) s.data []
where
  isSep (c : Char) : Bool := c == '.' || c == '!' || c == '?'
  go : Nat → List Char → List Char → List String
    | 0, _, acc => [String.mk acc.reverse]
    | _ + 1, [], acc => [String.mk acc.reverse]
    | fuel + 1, x :: xs, acc =>
      if isSep x then String.mk acc.reverse :: go fuel (xs.dropWhile isSep) []
      else go fuel xs (x :: acc)

/-! ## Host RegExp model

The agents hand user-controlled strings directly to `new RegExp(pattern, 'g')`
/ `new RegExp('\\b' + word + '\\b', 'gi')`. The RegExp engine is a host
capability, not repository code; it is modelled by:
- `regexpValid`, deciding whether compilation succeeds (ECMAScript pattern
  grammar restricted to the flat patterns reachable here: unmatched `(`, `)`
  or `[`, a dangling `\`, and a quantifier with nothing to repeat are
  compile errors, which matches the host behaviour on inputs such as `"("`
  and `"+"`);
- occurrence counters for the two pattern shapes the agents build (a plain
  literal, and a `\b…\b` whole-word pattern). The theorems below never depend
  on the exact counts, only on compilation success/failure and count
  non-negativity. -/

/-- One scan step of the pattern-validity checker. Arguments: fuel, remaining
pattern characters, open-paren depth, inside-character-class flag, and whether
the previous token was a quantifiable atom. -/
def regexpValidGo : Nat → List Char → Nat → Bool → Bool → Bool
  | 0, _, _, _, _ => false
  | _ + 1, [], d, inClass, _ => d == 0 && !inClass
  | fuel + 1, c :: rest, d, inClass, prev =>
    if inClass then
      if c == '\\' then
        match rest with
        | [] => false
        | _ :: r => regexpValidGo fuel r d true prev
      else if c == ']' then regexpValidGo fuel rest d false true
      else regexpValidGo fuel rest d true prev
    else
      if c == '\\' then
        match rest with
        | [] => false
        | e :: r =>
          -- an escaped `b`/`B` is a boundary assertion, which (like a bare
          -- quantifier target) cannot be repeated; other escapes are atoms
          regexpValidGo fuel r d false (!(e == 'b' || e == 'B'))
      else if c == '(' then regexpValidGo fuel rest (d + 1) false false
      else if c == ')' then d != 0 && regexpValidGo fuel rest (d - 1) false true
      else if c == '[' then regexpValidGo fuel rest d true false
      else if c == '|' then regexpValidGo fuel rest d false false
      else if c == '*' || c == '+' || c == '?' then
        prev && regexpValidGo fuel rest d false false
      else regexpValidGo fuel rest d false true

/-- Whether `new RegExp(p, …)` compiles on the host without throwing. -/
def regexpValid (p : String) : Bool :=
  regexpValidGo (p.length + 1) p.data 0 false false

/-- Word character for `\b` boundaries (`[A-Za-z0-9_]`, ASCII model). -/
def isWordChar (c : Char) : Bool := c.isAlphanum || c == '_'

/-- `\b` holds between `prev` and `next` iff exactly one side is a word
character (string ends count as non-word). -/
def boundaryBetween (prev next : Option Char) : Bool :=
  (match prev with | none => false | some c => isWordChar c)
    != (match next with | none => false | some c => isWordChar c)

/-- Whether `\bkw\b` matches at the current position (`prev` = character just
before the position, `text` = remaining characters). -/
def matchWordAt (kw : List Char) (prev : Option Char) (text : List Char) : Bool :=
  listHasPrefix kw text
    && boundaryBetween prev (match kw with | [] => text.head? | c :: _ => some c)
    && boundaryBetween (match kw.getLast? with | none => prev | some c => some c)
        ((text.drop kw.length).head?)

/-- Non-overlapping global count of `\bkw\b` matches, scanning left to right
(the 'g'-flag `String.match` count). Fuel-driven; the initial fuel always
suffices. -/
def countWordGo (kw : List Char) : Nat → Option Char → List Char → Nat
  | 0, _, _ => 0
  | _ + 1, prev, [] => if matchWordAt kw prev [] then 1 else 0
  | fuel + 1, prev, c :: rest =>
    if matchWordAt kw prev (c :: rest) then
      match kw with
      | [] => 1 + countWordGo kw fuel (some c) rest
      | _ :: _ =>
        1 + countWordGo kw fuel ((c :: rest).getLastD c)
              ((c :: rest).drop kw.length)
    else countWordGo kw fuel (some c) rest

/-- Count of whole-word occurrences of `w` in `text`, as
`text.match(new RegExp('\\b' + w + '\\b', 'g'))` returns for plain words. -/
def countWordOccur (w text : String) : Nat :=
  countWordGo w.data (text.length + 1) none text.data

/-- Non-overlapping global count of literal occurrences of `pat` in `text`
(an empty pattern matches at every position, as `/(?:)/g` does). -/
def countLitGo (pat : List Char) : Nat → List Char → Nat
  | 0, _ => 0
  | _ + 1, [] => if listHasPrefix pat [] then 1 else 0
  | fuel + 1, c :: rest =>
    if listHasPrefix pat (c :: rest) then
      match pat with
      | [] => 1 + countLitGo pat fuel rest
      | _ :: _ => 1 + countLitGo pat fuel ((c :: rest).drop pat.length)
    else countLitGo pat fuel rest

/-- Count of literal occurrences of `pat` in `text`. -/
def countLitOccur (pat text : String) : Nat :=
  countLitGo pat.data (text.length + 1) text.data

/-- `text.match(new RegExp(pat, 'g'))` length, or a SyntaxError when the
pattern does not compile. The count models the host engine on the
alphanumeric patterns the theorems instantiate. -/
def jsMatchCount (pat text : String) : Except String Nat :=
  if regexpValid pat then Except.ok (countLitOccur pat text)
  else Except.error "SyntaxError: Invalid regular expression"

/-- `text.match(new RegExp('\\b' + w + '\\b', 'gi'))` length, or a
SyntaxError when the assembled pattern does not compile. -/
def jsWordMatchCount (w text : String) : Except String Nat :=
  if regexpValid ("\\b" ++ w ++ "\\b") then Except.ok (countWordOccur w text)
  else Except.error "SyntaxError: Invalid regular expression"

/-! ## Sorting, as guaranteed by `Array.prototype.sort` with a numeric
comparator: the result is ordered according to the comparator. -/

/-- Insert `a` into `l`, keeping `l` ordered by non-increasing `key`. -/
def insertDescBy {α : Type} (key : α → ℚ) (a : α) : List α → List α
  | [] => [a]
  | b :: t => if key b ≤ key a then a :: b :: t else b :: insertDescBy key a t

/-- Sort by non-increasing `key` (models `.sort((a, b) => key b - key a)`). -/
def sortDescBy {α : Type} (key : α → ℚ) : List α → List α
  | [] => []
  | a :: t => insertDescBy key a (sortDescBy key t)

/-- Insert `a` into `l`, keeping `l` ordered by non-decreasing `key`. -/
def insertAscBy {α : Type} (key : α → ℤ) (a : α) : List α → List α
  | [] => [a]
  | b :: t => if key a ≤ key b then a :: b :: t else b :: insertAscBy key a t

/-- Sort by non-decreasing `key` (models `.sort((a, b) => key a - key b)`). -/
def sortAscBy {α : Type} (key : α → ℤ) : List α → List α
  | [] => []
  | a :: t => insertAscBy key a (sortAscBy key t)

theorem mem_insertDescBy {α : Type} (key : α → ℚ) (a x : α) (l : List α) :
    x ∈ insertDescBy key a l ↔ x = a ∨ x ∈ l := by
  induction l with
  | nil => simp [insertDescBy]
  | cons b t ih =>
    by_cases h : key b ≤ key a
    · simp [insertDescBy, h]
    · simp [insertDescBy, h, ih]
      tauto

theorem length_insertDescBy {α : Type} (key : α → ℚ) (a : α) (l : List α) :
    (insertDescBy key a l).length = l.length + 1 := by
  induction l with
  | nil => rfl
  | cons b t ih =>
    by_cases h : key b ≤ key a
    · simp [insertDescBy, h]
    · simp [insertDescBy, h, ih]

theorem length_sortDescBy {α : Type} (key : α → ℚ) (l : List α) :
    (sortDescBy key l).length = l.length := by
  induction l with
  | nil => rfl
  | cons a t ih => simp [sortDescBy, length_insertDescBy, ih]

theorem pairwise_insertDescBy {α : Type} (key : α → ℚ) (a : α) (l : List α)
    (h : l.Pairwise fun x y => key y ≤ key x) :
    (insertDescBy key a l).Pairwise fun x y => key y ≤ key x := by
  induction l with
  | nil => simp [insertDescBy]
  | cons b t ih =>
    rcases List.pairwise_cons.1 h with ⟨hb, ht⟩
    by_cases hba : key b ≤ key a
    · rw [insertDescBy, if_pos hba]
      refine List.pairwise_cons.2 ⟨?_, h⟩
      intro y hy
      rcases List.mem_cons.1 hy with rfl | hyt
      · exact hba
      · exact le_trans (hb y hyt) hba
    · rw [insertDescBy, if_neg hba]
      refine List.pairwise_cons.2 ⟨?_, ih ht⟩
      intro y hy
      rcases (mem_insertDescBy key a y t).1 hy with rfl | hyt
      · exact le_of_not_le hba
      · exact hb y hyt

theorem pairwise_sortDescBy {α : Type} (key : α → ℚ) (l : List α) :
    (sortDescBy key l).Pairwise fun x y => key y ≤ key x := by
  induction l with
  | nil => simp [sortDescBy]
  | cons a t ih => exact pairwise_insertDescBy key a _ ih

/-! ## Shared result status -/

/-- JavaScript result `status` field values (`'success'` / `'failed'`). -/
inductive JStatus where
  | success
  | failed
deriving DecidableEq

/-- One day in milliseconds (`24 * 60 * 60 * 1000`). -/
def dayMs : ℤ := 24 * 60 * 60 * 1000

/-! ## External Signals Agent (`web/src/App.tsx`) -/

/-- One external signal item as built by the news/YouTube/RSS gatherers.
`metadataSimulated` records whether the item's `metadata` bag carries
`simulated: true`. -/
structure ExtSignal where
  title : String
  content : String
  source : String
  url : String
  publishedAt : Option ℤ
  relevanceScore : ℚ
  metadataSimulated : Bool
deriving DecidableEq

/-- One sub-source outcome (`{type, status, count, signals, source}`). -/
structure SourceResult where
  status : JStatus
  count : Nat
  signals : List ExtSignal
  source : String
deriving DecidableEq

namespace ExternalSignalsAgent

/-- `ExternalSignalsAgent.calculateRelevance` (App.tsx lines 1064-1095).
The per-keyword `new RegExp('\\b' + keyword + '\\b', 'gi')` can throw, hence
the `Except`. An empty content returns 0 before any regex is built. -/
def calculateRelevance (content topic : String) (productArea : Option String) :
    Except String ℚ :=
  if content == "" then Except.ok 0
  else
    let normalizedContent := jsToLower content
    let normalizedTopic := jsToLower topic
    let normalizedProductArea :=
      match productArea with
      | some p => jsToLower p
      | none => ""
    let base : ℚ :=
      (if jsIncludes normalizedContent normalizedTopic then 1/2 else 0) +
      (if !(normalizedProductArea == "")
          && jsIncludes normalizedContent normalizedProductArea then 3/10 else 0)
    let topicWords := jsSplitOnChar ' ' normalizedTopic
    let productWords :=
      if normalizedProductArea == "" then []
      else jsSplitOnChar ' ' normalizedProductArea
    let allKeywords := topicWords ++ productWords
    (allKeywords.mapM fun keyword =>
        jsWordMatchCount keyword normalizedContent).map fun counts =>
      min (base + counts.foldr (fun n acc => acc + (n : ℚ) * (1/10)) 0) 1

/-- Weight constants of `calculateCombinedScore` (App.tsx lines 1113-1114). -/
def relevanceWeight : ℚ := 7/10

def recencyWeight : ℚ := 3/10

/-- `calculateCombinedScore` (App.tsx lines 1112-1130): relevance blended with
a step function of the signal's age in days; signals without a timestamp get
recency 0. `now` models `Date.now()`. -/
def calculateCombinedScore (s : ExtSignal) (now : ℤ) : ℚ :=
  let recencyScore : ℚ :=
    match s.publishedAt with
    | none => 0
    | some publishDate =>
      let daysDiff : ℚ := ((now - publishDate : ℤ) : ℚ) / (1000 * 60 * 60 * 24)
      if daysDiff ≤ 1 then 1
      else if daysDiff ≤ 7 then 4/5
      else if daysDiff ≤ 30 then 3/5
      else 3/10
  s.relevanceScore * relevanceWeight + recencyScore * recencyWeight

/-- A signal with its attached `combinedScore` (object spread in
`rankSignalsByRelevance`). -/
structure RankedSignal extends ExtSignal where
  combinedScore : ℚ
deriving DecidableEq

/-- `rankSignalsByRelevance` (App.tsx lines 1100-1107): attach combined
scores, then sort descending by them. -/
def rankSignalsByRelevance (signals : List ExtSignal) (now : ℤ) :
    List RankedSignal :=
  sortDescBy (fun s => s.combinedScore)
    (signals.map fun s =>
      { toExtSignal := s, combinedScore := calculateCombinedScore s now })

/-- The success result assembled by `gatherSignals` (App.tsx lines 827-849):
`signalCount` is the length of the full ranked list, while `rankedSignals`
is truncated by `slice(0, maxResults)`. `allSignals` is the flat-map of the
sub-source signal lists. -/
structure ExtResult where
  status : JStatus
  signalCount : Nat
  rankedSignals : List RankedSignal
deriving DecidableEq

def gatherSignalsResult (allSignals : List ExtSignal) (maxResults : Nat)
    (now : ℤ) : ExtResult :=
  let rankedSignals := rankSignalsByRelevance allSignals now
  { status := JStatus.success
    signalCount := rankedSignals.length
    rankedSignals := rankedSignals.take maxResults }

/-- `generateSimulatedNewsData` (App.tsx lines 1150-1191): three fixed
articles, each with `metadata: { simulated: true }`. -/
def generateSimulatedNewsData (topic : String) (productArea : Option String)
    (now : ℤ) : SourceResult :=
  let simulatedArticles : List ExtSignal :=
    [ { title := "Industry Analysis: " ++ topic ++ " Trends Reshape Market Landscape"
        content := "Recent market analysis reveals significant shifts in " ++ topic
          ++ " adoption patterns. Key industry players are investing heavily in "
          ++ (productArea.getD "related technologies")
          ++ " to capture emerging opportunities."
        source := "Tech Industry Report"
        url := "https://example.com/news/1"
        publishedAt := some (now - 2 * dayMs)
        relevanceScore := 17/20
        metadataSimulated := true },
      { title := "Breaking: Major Investment in " ++ topic ++ " Solutions"
        content := "Venture capital firms announce $50M funding round for startups focusing on "
          ++ topic ++ " innovation, signaling strong market confidence."
        source := "Business News Daily"
        url := "https://example.com/news/2"
        publishedAt := some (now - 1 * dayMs)
        relevanceScore := 39/50
        metadataSimulated := true },
      { title := "Research Report: Consumer Adoption of " ++ topic ++ " Accelerates"
        content := "New consumer research indicates 67% increase in " ++ topic
          ++ " adoption over the past quarter, driven by improved user experience and cost reduction."
        source := "Market Research Weekly"
        url := "https://example.com/news/3"
        publishedAt := some (now - 3 * dayMs)
        relevanceScore := 18/25
        metadataSimulated := true } ]
  { status := JStatus.success
    count := simulatedArticles.length
    signals := simulatedArticles
    source := "Simulated News Data" }

/-- `generateSimulatedYouTubeData` (App.tsx lines 1196-1228): two fixed
videos, each with `metadata: { simulated: true }` (the video `channel` is
carried in the `source` slot here). -/
def generateSimulatedYouTubeData (topic : String) (productArea : Option String)
    (now : ℤ) : SourceResult :=
  let simulatedVideos : List ExtSignal :=
    [ { title := topic ++ " Explained: Complete Guide for " ++ (productArea.getD "Professionals")
        content := "Comprehensive tutorial covering " ++ topic
          ++ " implementation, best practices, and real-world case studies. Perfect for teams looking to adopt "
          ++ topic ++ " solutions."
        source := "Tech Education Hub"
        url := "https://www.youtube.com/watch?v=sim123456789"
        publishedAt := some (now - 5 * dayMs)
        relevanceScore := 22/25
        metadataSimulated := true },
      { title := "Industry Leaders Discuss " ++ topic ++ " Future Trends"
        content := "Panel discussion featuring CTOs from leading companies sharing insights on "
          ++ topic ++ " evolution and market opportunities."
        source := "Industry Insights"
        url := "https://www.youtube.com/watch?v=sim987654321"
        publishedAt := some (now - 7 * dayMs)
        relevanceScore := 81/100
        metadataSimulated := true } ]
  { status := JStatus.success
    count := simulatedVideos.length
    signals := simulatedVideos
    source := "Simulated YouTube Data" }

/-- `gatherNewsSignals` (App.tsx lines 865-925): with no News API key the
simulated generator is used unconditionally; otherwise the network path
(modelled by the opaque-to-this-development `networkOutcome` parameter,
which already includes the catch-fallback behaviour) is taken. -/
def gatherNewsSignals (newsApiKey : Option String)
    (networkOutcome : SourceResult) (topic : String)
    (productArea : Option String) (now : ℤ) : SourceResult :=
  match newsApiKey with
  | none => generateSimulatedNewsData topic productArea now
  | some _ => networkOutcome

/-- `gatherYouTubeSignals` (App.tsx lines 930-990), same shape. -/
def gatherYouTubeSignals (youtubeApiKey : Option String)
    (networkOutcome : SourceResult) (topic : String)
    (productArea : Option String) (now : ℤ) : SourceResult :=
  match youtubeApiKey with
  | none => generateSimulatedYouTubeData topic productArea now
  | some _ => networkOutcome

end ExternalSignalsAgent

/-! ## Internal Research Agent (`src/agents/internalResearchAgent.ts`) -/

namespace InternalResearchAgent

/-- `isRelevantContent` (lines 413-434): cheap relevance prefilter. Content
that is empty or under 100 characters is rejected outright. -/
def isRelevantContent (content topic : String) (productArea : Option String) :
    Bool :=
  if content == "" || content.length < 100 then false
  else
    let normalizedContent := jsToLower content
    let normalizedTopic := jsToLower topic
    let normalizedProductArea :=
      match productArea with
      | some p => jsToLower p
      | none => ""
    let topicMentions := jsIncludes normalizedContent normalizedTopic
    let productMentions :=
      if normalizedProductArea == "" then false
      else jsIncludes normalizedContent normalizedProductArea
    let topicKeywords := jsSplitOnChar ' ' normalizedTopic
    let keywordMatches :=
      topicKeywords.any fun keyword => jsIncludes normalizedContent keyword
    topicMentions || productMentions || keywordMatches

/-- `calculateContentRelevance` (lines 439-468). The topic and product-area
strings are compiled as regular expressions without escaping
(`new RegExp(normalizedTopic, 'g')`, `new RegExp('\\b' + word + '\\b', 'g')`),
so compilation can throw. The final score is capped at 1. -/
def calculateContentRelevance (content topic : String)
    (productArea : Option String) : Except String ℚ :=
  let normalizedContent := jsToLower content
  let normalizedTopic := jsToLower topic
  let normalizedProductArea :=
    match productArea with
    | some p => jsToLower p
    | none => ""
  (jsMatchCount normalizedTopic normalizedContent).bind fun topicMatches =>
  (if normalizedProductArea == "" then Except.ok 0
   else jsMatchCount normalizedProductArea normalizedContent).bind
    fun productMatches =>
  let topicWords := jsSplitOnChar ' ' normalizedTopic
  (topicWords.mapM fun word =>
      jsWordMatchCount word normalizedContent).map fun wordMatches =>
    let score : ℚ :=
      (topicMatches : ℚ) * (3/10) + (productMatches : ℚ) * (1/5)
        + wordMatches.foldr (fun n acc => acc + (n : ℚ) * (1/10)) 0
        + (if 1000 < content.length then 1/10 else 0)
        + (if jsIncludes content "interview" || jsIncludes content "research"
           then 1/10 else 0)
    min score 1

/-- One finding produced by `generateFindings` (content sentence, source
file name, file type used by the score bonuses, and the source document's
relevance score). -/
structure Finding where
  content : String
  source : String
  fileType : String
  relevanceScore : ℚ
deriving DecidableEq

/-- `calculateFindingScore` (lines 617-630): relevance plus length and
file-type bonuses, capped at 1. -/
def calculateFindingScore (finding : Finding) : ℚ :=
  let s0 : ℚ := finding.relevanceScore
  let s1 := s0 + (if 200 < finding.content.length then 1/5 else 0)
  let s2 := s1 + (if 500 < finding.content.length then 1/5 else 0)
  let s3 := s2 + (if finding.fileType == ".md" then 1/10 else 0)
  let s4 := s3 + (if finding.fileType == ".vtt" then 3/20 else 0)
  min s4 1

/-- A finding with its attached `combinedScore`. -/
structure RankedFinding extends Finding where
  combinedScore : ℚ
deriving DecidableEq

/-- `rankFindings` (lines 605-612): attach combined scores, sort descending. -/
def rankFindings (findings : List Finding) : List RankedFinding :=
  sortDescBy (fun f => f.combinedScore)
    (findings.map fun finding =>
      { toFinding := finding, combinedScore := calculateFindingScore finding })

/-- A discovered research file (name, extension, extracted text). -/
structure ResearchDoc where
  fileName : String
  fileType : String
  content : String
deriving DecidableEq

/-- A file that passed the relevance prefilter, with its content score. -/
structure ProcessedDoc where
  fileName : String
  fileType : String
  content : String
  relevanceScore : ℚ
deriving DecidableEq

/-- `processResearchFiles` (lines 179-208): keep a file iff
`isRelevantContent` accepts its text, scoring it with
`calculateContentRelevance`; the per-file try/catch turns a thrown scoring
error into a dropped file (`null`). -/
def processResearchFiles (docs : List ResearchDoc) (topic : String)
    (productArea : Option String) : List ProcessedDoc :=
  docs.filterMap fun d =>
    if isRelevantContent d.content topic productArea then
      match calculateContentRelevance d.content topic productArea with
      | Except.ok sc =>
        some { fileName := d.fileName, fileType := d.fileType
               content := d.content, relevanceScore := sc }
      | Except.error _ => none
    else none

/-- `generateFindings` (lines 537-569): split each document into sentences
on `[.!?]+`, keep sentences mentioning the topic (or product area), and keep
only those whose trimmed length exceeds 50 characters. -/
def generateFindings (processedContent : List ProcessedDoc) (topic : String)
    (productArea : Option String) : List Finding :=
  processedContent.flatMap fun doc =>
    let sentences := splitSentenceRuns doc.content
    let relevantSentences := sentences.filter fun sentence =>
      let normalizedSentence := jsToLower sentence
      jsIncludes normalizedSentence (jsToLower topic)
        || (match productArea with
            | some pa => jsIncludes normalizedSentence (jsToLower pa)
            | none => false)
    relevantSentences.filterMap fun sentence =>
      let trimmedSentence := jsTrim sentence
      if 50 < trimmedSentence.length then
        some { content := trimmedSentence, source := doc.fileName
               fileType := doc.fileType, relevanceScore := doc.relevanceScore }
      else none

/-- The success result assembled by `analyzeResearch` (lines 92-109):
`findingCount` is the length of the full ranked list, while `rankedFindings`
is truncated by `slice(0, maxResults)`. -/
structure IntResult where
  status : JStatus
  findingCount : Nat
  rankedFindings : List RankedFinding
deriving DecidableEq

def analyzeResearchPipeline (docs : List ResearchDoc) (topic : String)
    (productArea : Option String) (maxResults : Nat) : IntResult :=
  let processedContent := processResearchFiles docs topic productArea
  let findings := generateFindings processedContent topic productArea
  let rankedFindings := rankFindings findings
  { status := JStatus.success
    findingCount := rankedFindings.length
    rankedFindings := rankedFindings.take maxResults }

end InternalResearchAgent

/-! ## Product Metrics Agent (`src/agents/productMetricsAgent.ts`) -/

namespace ProductMetricsAgent

/-- One simulated metric data point as pushed by the generators. The source
object literals (`{date, metric, value, topic, productArea, description}`)
carry no `metadata` bag and in particular no `simulated` marker:
`metadataSimulated` is `false` for every generated point. -/
structure MetricPoint where
  dateMs : ℤ
  metric : String
  value : ℚ
  metadataSimulated : Bool
deriving DecidableEq

/-- JavaScript `Math.floor` on the rationals standing in for doubles. -/
def jsMathFloor (q : ℚ) : ℚ := (q.floor : ℚ)

/-- The `isBicepRelated` keyword test repeated at the top of each generator
(lines 466-468 and analogues). -/
def isBicepRelated (topic : String) : Bool :=
  let topicLower := jsToLower topic
  jsIncludes topicLower "bicep" || jsIncludes topicLower "infrastructure"
    || jsIncludes topicLower "deployment" || jsIncludes topicLower "iac"
    || jsIncludes topicLower "testing" || jsIncludes topicLower "validation"

/-- `generateSimulatedUsageData` (lines 461-539). `rand` is the stream of
`Math.random()` draws in their call order (one `dailyVariation` draw plus
four value draws per day on the Bicep branch; one `baseUsage` draw plus one
`dailyVariation` draw per day on the generic branch). -/
def generateSimulatedUsageData (topic : String) (_productArea : Option String)
    (now : ℤ) (rand : Nat → ℚ) : List MetricPoint :=
  if isBicepRelated topic then
    (List.range 7).flatMap fun i =>
      let date := now - (i : ℤ) * dayMs
      let dailyVariation := (rand (5 * i) - 1/2) * (1/5)
      [ { dateMs := date, metric := "bicep_deployments_daily"
          value := jsMathFloor ((150 + rand (5 * i + 1) * 50) * (1 + dailyVariation))
          metadataSimulated := false },
        { dateMs := date, metric := "validation_runs"
          value := jsMathFloor ((320 + rand (5 * i + 2) * 80) * (1 + dailyVariation))
          metadataSimulated := false },
        { dateMs := date, metric := "deployment_failures"
          value := jsMathFloor ((45 + rand (5 * i + 3) * 15) * (1 + dailyVariation))
          metadataSimulated := false },
        { dateMs := date, metric := "template_modifications"
          value := jsMathFloor ((85 + rand (5 * i + 4) * 25) * (1 + dailyVariation))
          metadataSimulated := false } ]
  else
    let baseUsage : ℚ := jsMathFloor (rand 0 * 10000) + 1000
    (List.range 7).flatMap fun i =>
      let date := now - (i : ℤ) * dayMs
      let dailyVariation := (rand (i + 1) - 1/2) * (3/10)
      [ { dateMs := date, metric := "daily_active_users"
          value := jsMathFloor (baseUsage * (1 + dailyVariation))
          metadataSimulated := false },
        { dateMs := date, metric := "feature_usage"
          value := jsMathFloor (baseUsage * (3/10) * (1 + dailyVariation))
          metadataSimulated := false } ]

/-- One metric sub-source outcome (`{type, status, source, dataPoints,
data, metadata}`). -/
structure MetricsSourceResult where
  status : JStatus
  dataPoints : Nat
  data : List MetricPoint
  source : String
deriving DecidableEq

/-- `collectUsageMetrics` (lines 154-182): with no analytics credentials the
simulated generator is always used, and it cannot throw, so the catch branch
is unreachable and the outcome is a success with the generated points. -/
def collectUsageMetrics (topic : String) (productArea : Option String)
    (now : ℤ) (rand : Nat → ℚ) : MetricsSourceResult :=
  let usageData := generateSimulatedUsageData topic productArea now rand
  { status := JStatus.success
    dataPoints := usageData.length
    data := usageData
    source := "Usage Analytics" }

/-- One extracted trend (`{metric, sourceType, direction, percentChange,
dataPoints}`). -/
structure Trend where
  metric : String
  sourceType : String
  direction : String
  percentChange : ℚ
  dataPoints : Nat
deriving DecidableEq

/-- `Math.round(q * 100) / 100` (round half toward positive infinity). -/
def jsMathRound2 (q : ℚ) : ℚ := ((q * 100 + 1/2).floor : ℚ) / 100

/-- The distinct metric names of a data set in first-occurrence order (the
key set of the `reduce` grouping at lines 796-801). -/
def metricKeys (data : List MetricPoint) : List String :=
  data.foldl
    (fun acc item => if acc.contains item.metric then acc else acc ++ [item.metric])
    []

/-- The trend built for one metric group (lines 804-819): date-sorted first
and last values, percent change (0 when the first value is 0), threshold
classification, and the percent change rounded to two decimals. -/
def mkTrend (metric sourceType : String) (items : List MetricPoint) : Trend :=
  let sortedItems := sortAscBy (fun it => it.dateMs) items
  let firstValue : ℚ := (sortedItems.head?.map fun it => it.value).getD 0
  let lastValue : ℚ := (sortedItems.getLast?.map fun it => it.value).getD 0
  let percentChange : ℚ :=
    if firstValue ≠ 0 then (lastValue - firstValue) / firstValue * 100 else 0
  { metric := metric
    sourceType := sourceType
    direction :=
      if 5 < percentChange then "increasing"
      else if percentChange < -5 then "decreasing"
      else "stable"
    percentChange := jsMathRound2 percentChange
    dataPoints := items.length }

/-- `extractTrends` (lines 790-823): group points by metric name and emit a
trend for every group with more than one point. -/
def extractTrends (data : List MetricPoint) (sourceType : String) : List Trend :=
  (metricKeys data).filterMap fun metric =>
    let items := data.filter fun it => it.metric == metric
    if 1 < items.length then some (mkTrend metric sourceType items) else none

end ProductMetricsAgent

/-! ## Orchestrator (`src/orchestrator.ts`) and HTTP entry point -/

/-- The fields of an agent result object that the orchestrator reads. Each
agent returns its own count field name — `signalCount` (external,
App.tsx 835-849), `findingCount` (internal, lines 92-109 and 113-118),
`dataPointCount` (product, lines 122-138 and 142-147) — so the other count
slots of a given result are absent (`none`, i.e. `undefined`). -/
structure JsResult where
  status : JStatus
  signalCount : Option Nat
  findingCount : Option Nat
  dataPointCount : Option Nat
  error : Option String
deriving DecidableEq

/-- `gatherSignals` success result, seen through the orchestrator's eyes. -/
def externalSuccessView (signalCount : Nat) : JsResult :=
  { status := JStatus.success, signalCount := some signalCount
    findingCount := none, dataPointCount := none, error := none }

/-- `analyzeResearch` success result (internalResearchAgent.ts 92-109). -/
def internalSuccessView (findingCount : Nat) : JsResult :=
  { status := JStatus.success, signalCount := none
    findingCount := some findingCount, dataPointCount := none, error := none }

/-- `analyzeResearch` caught-failure result (lines 113-118): the agent
catches its own error and *resolves* with `status: 'failed'`. -/
def internalCaughtFailureView (msg : String) : JsResult :=
  { status := JStatus.failed, signalCount := none
    findingCount := some 0, dataPointCount := none, error := some msg }

/-- `collectMetrics` success result (productMetricsAgent.ts 122-138). -/
def productSuccessView (dataPointCount : Nat) : JsResult :=
  { status := JStatus.success, signalCount := none
    findingCount := none, dataPointCount := some dataPointCount, error := none }

/-- `collectMetrics` caught-failure result (lines 142-147), also resolved,
not rejected. -/
def productCaughtFailureView (msg : String) : JsResult :=
  { status := JStatus.failed, signalCount := none
    findingCount := none, dataPointCount := some 0, error := some msg }

/-- A settled promise from `Promise.allSettled` over the `runWithRetry`
wrappers: fulfilled with the agent's result object, or rejected with the
final retry error. -/
inductive SettledResult where
  | fulfilled (value : JsResult)
  | rejected (msg : String)
deriving DecidableEq

def isFulfilled : SettledResult → Bool
  | SettledResult.fulfilled _ => true
  | SettledResult.rejected _ => false

/-- The per-slot fallback of orchestrator.ts lines 159-161: a rejected slot
is replaced by `{status: 'failed', error, signalCount: 0, data: []}` (note
the fallback always uses the `signalCount` field name). -/
def extractData : SettledResult → JsResult
  | SettledResult.fulfilled v => v
  | SettledResult.rejected msg =>
    { status := JStatus.failed, signalCount := some 0
      findingCount := none, dataPointCount := none, error := some msg }

/-- One cross-reference opportunity descriptor (type and priority). -/
structure Opportunity where
  otype : String
  priority : String
deriving DecidableEq

/-- `identifyCrossReferences` (orchestrator.ts lines 368-404). Note every
`has…` test reads the `signalCount` field of the given result object. -/
def identifyCrossReferences (e i p : JsResult) : List Opportunity :=
  let hasExternal := e.status == JStatus.success && decide (0 < e.signalCount.getD 0)
  let hasInternal := i.status == JStatus.success && decide (0 < i.signalCount.getD 0)
  let hasProduct := p.status == JStatus.success && decide (0 < p.signalCount.getD 0)
  (if hasExternal && hasInternal && hasProduct then
    [{ otype := "multi_source_validation", priority := "high" }] else [])
  ++ (if hasExternal && hasInternal then
    [{ otype := "market_research_alignment", priority := "high" }] else [])
  ++ (if hasInternal && hasProduct then
    [{ otype := "metrics_research_validation", priority := "medium" }] else [])

/-- The aggregate fields of the report `orchestrate` returns. -/
structure OrchestrationReport where
  success : Bool
  topic : String
  totalSignals : Nat
  successfulAgents : Nat
  agentStatusExternal : Bool
  agentStatusInternal : Bool
  agentStatusProduct : Bool
  crossReferenceInsights : List Opportunity
deriving DecidableEq

/-- `orchestrate` (orchestrator.ts lines 124-231), with the three settled
agent invocations as parameters. Lines 124-143 perform no validation of
`topic`: the function aggregates whatever the agents produced, for any topic
string, and returns `success: true` on this path (the catch branch concerns
file-system failures outside this embedding). `totalSignals` (line 164) sums
the `signalCount` field of all three extracted results; `successfulAgents`
(line 150) counts *fulfilled* promises. -/
def orchestrate (topic : String)
    (externalResult internalResult productResult : SettledResult) :
    OrchestrationReport :=
  let successfulAgents :=
    [externalResult, internalResult, productResult].countP isFulfilled
  let externalData := extractData externalResult
  let internalData := extractData internalResult
  let productData := extractData productResult
  let totalSignals := externalData.signalCount.getD 0
    + internalData.signalCount.getD 0 + productData.signalCount.getD 0
  { success := true
    topic := topic
    totalSignals := totalSignals
    successfulAgents := successfulAgents
    agentStatusExternal := isFulfilled externalResult
    agentStatusInternal := isFulfilled internalResult
    agentStatusProduct := isFulfilled productResult
    crossReferenceInsights :=
      identifyCrossReferences externalData internalData productData }

/-- The `/api/orchestrate` route of `RuleOfThirdsHttpServer` (httpServer
source, lines 85-101): an absent/empty/whitespace-only topic is answered
with a 400 validation error before `orchestrate` is ever called; otherwise
the trimmed topic is passed through. -/
def httpOrchestrate (topic : String)
    (externalResult internalResult productResult : SettledResult) :
    Except String OrchestrationReport :=
  if (jsTrim topic).length = 0 then
    Except.error "Topic is required and must be a non-empty string"
  else
    Except.ok (orchestrate (jsTrim topic) externalResult internalResult productResult)

/-! ### Spec-side reference definitions (for comparing code with spec) -/

/-- Follows the spec's words: a collector's reported signal count is its
single count field (`signalCount` / `findingCount` / `dataPointCount`); each
result object carries exactly one of the three, so the sum of the defaults
reads that one field. -/
def specCollectorSignalCount (r : JsResult) : Nat :=
  r.signalCount.getD 0 + r.findingCount.getD 0 + r.dataPointCount.getD 0

/-- Follows the spec's words: a collector counts as Success iff it settled
with a result whose status is Success. -/
def specStatusSuccess : SettledResult → Bool
  | SettledResult.fulfilled v => v.status == JStatus.success
  | SettledResult.rejected _ => false

/-- Follows the spec's words: `totalSignalCount` is the sum of the signal
counts of exactly the collectors with status Success. -/
def specTotalSignalCount (e i p : SettledResult) : Nat :=
  [e, i, p].foldr
    (fun s acc =>
      (if specStatusSuccess s then specCollectorSignalCount (extractData s) else 0) + acc)
    0

/-- Follows the spec's words: `successfulCollectorCount` is the number of
Success statuses among the three. -/
def specSuccessfulCollectorCount (e i p : SettledResult) : Nat :=
  [e, i, p].countP specStatusSuccess

/-! ## Claim theorems -/

/-- C1: the claim states that `totalSignalCount` is the sum of the signal
counts of exactly the Success collectors (the Internal collector's findings
and the Product collector's data points included) and that
`successfulCollectorCount` counts Success statuses. The code diverges: at a
run where the external agent is rejected after retries, the internal agent
succeeds with 3 findings, and the product agent resolves with a caught
failure, `orchestrate` reports `totalSignals = 0` (it reads the
`signalCount` field, which internal/product results never carry) and
`successfulAgents = 2` (it counts fulfilled promises, including the caught
failure), whereas the spec-side definitions give 3 and 1. -/
theorem c1_total_signal_count_divergence :
    (orchestrate "checkout flow" (SettledResult.rejected "Agent timeout")
        (SettledResult.fulfilled (internalSuccessView 3))
        (SettledResult.fulfilled (productCaughtFailureView "metrics crashed"))).totalSignals
      = 0
  ∧ specTotalSignalCount (SettledResult.rejected "Agent timeout")
        (SettledResult.fulfilled (internalSuccessView 3))
        (SettledResult.fulfilled (productCaughtFailureView "metrics crashed"))
      = 3
  ∧ (orchestrate "checkout flow" (SettledResult.rejected "Agent timeout")
        (SettledResult.fulfilled (internalSuccessView 3))
        (SettledResult.fulfilled (productCaughtFailureView "metrics crashed"))).successfulAgents
      = 2
  ∧ specSuccessfulCollectorCount (SettledResult.rejected "Agent timeout")
        (SettledResult.fulfilled (internalSuccessView 3))
        (SettledResult.fulfilled (productCaughtFailureView "metrics crashed"))
      = 1 :=
  ⟨rfl, rfl, rfl, rfl⟩

/-- C2: the claim states the relevance scorers never throw, for all inputs
including regex-special topics such as `"("` or `"+"`. The code compiles the
raw topic (and each topic word) as a regular expression without escaping, so
both scorers throw a SyntaxError on such topics. -/
theorem c2_regex_special_topic_throws :
    ExternalSignalsAgent.calculateRelevance "market analysis" "(" none
      = Except.error "SyntaxError: Invalid regular expression"
  ∧ InternalResearchAgent.calculateContentRelevance "market analysis" "(" none
      = Except.error "SyntaxError: Invalid regular expression"
  ∧ ExternalSignalsAgent.calculateRelevance "market analysis" "+" none
      = Except.error "SyntaxError: Invalid regular expression"
  ∧ InternalResearchAgent.calculateContentRelevance "market analysis" "+" none
      = Except.error "SyntaxError: Invalid regular expression" :=
  ⟨rfl, rfl, rfl, rfl⟩

/-- C3 counterexample: the claim states that `orchestrate` itself fails fast
with a validation error on an empty topic without invoking any collector.
In fact `orchestrate ""` runs the collectors and returns an ordinary success
report assembled from their results (here `totalSignals = 5` from the
external collector), not a validation failure. -/
theorem c3_orchestrate_empty_topic_counterexample :
    (orchestrate "" (SettledResult.fulfilled (externalSuccessView 5))
        (SettledResult.fulfilled (internalSuccessView 0))
        (SettledResult.fulfilled (productSuccessView 0))).success = true
  ∧ (orchestrate "" (SettledResult.fulfilled (externalSuccessView 5))
        (SettledResult.fulfilled (internalSuccessView 0))
        (SettledResult.fulfilled (productSuccessView 0))).totalSignals = 5
  ∧ (orchestrate "" (SettledResult.fulfilled (externalSuccessView 5))
        (SettledResult.fulfilled (internalSuccessView 0))
        (SettledResult.fulfilled (productSuccessView 0))).successfulAgents = 3 :=
  ⟨rfl, rfl, rfl⟩

/-- C3 (amended): the empty/whitespace-topic validation lives in the HTTP
entry point, not in `orchestrate`: for every topic that trims to the empty
string, the `/api/orchestrate` route returns the validation error, and its
answer does not depend on any collector result (no collector output is
consulted). -/
theorem c3_http_layer_validation (topic : String)
    (e i p e2 i2 p2 : SettledResult) (h : (jsTrim topic).length = 0) :
    httpOrchestrate topic e i p
      = Except.error "Topic is required and must be a non-empty string"
  ∧ httpOrchestrate topic e i p = httpOrchestrate topic e2 i2 p2 := by
  constructor
  · simp [httpOrchestrate, h]
  · simp [httpOrchestrate, h]

/-- C3 witness: the amended statement at the whitespace topic `"   "`. -/
theorem c3_http_layer_validation_witness :
    httpOrchestrate "   " (SettledResult.rejected "x") (SettledResult.rejected "y")
        (SettledResult.rejected "z")
      = Except.error "Topic is required and must be a non-empty string"
  ∧ httpOrchestrate "   " (SettledResult.rejected "x") (SettledResult.rejected "y")
        (SettledResult.rejected "z")
      = httpOrchestrate "   " (SettledResult.fulfilled (externalSuccessView 9))
          (SettledResult.fulfilled (internalSuccessView 9))
          (SettledResult.fulfilled (productSuccessView 9)) :=
  c3_http_layer_validation "   " _ _ _ _ _ _ (by decide)

/-- C7: the claim states the cross-reference step emits the three-entry rule
table as a function of which collectors succeeded with non-zero signals. The
rule table itself matches the claim when fed uniform `signalCount`-bearing
records (second conjunct), but on the results the agents actually return
(internal `findingCount`, product `dataPointCount`) every internal/product
test reads an absent `signalCount` and the code emits no opportunity at all
even with all three collectors non-empty (first conjunct). -/
theorem c7_cross_reference_field_mismatch :
    identifyCrossReferences (externalSuccessView 5) (internalSuccessView 3)
        (productSuccessView 56) = []
  ∧ identifyCrossReferences (externalSuccessView 5)
        { status := JStatus.success, signalCount := some 3, findingCount := none
          dataPointCount := none, error := none }
        { status := JStatus.success, signalCount := some 56, findingCount := none
          dataPointCount := none, error := none }
      = [{ otype := "multi_source_validation", priority := "high" },
         { otype := "market_research_alignment", priority := "high" },
         { otype := "metrics_research_validation", priority := "medium" }] :=
  ⟨rfl, rfl⟩

/-- The markdown file of end-to-end scenario C: `"# Report\nUsers loved the
checkout flow redesign."` (48 characters). -/
def c8Doc : InternalResearchAgent.ResearchDoc :=
  { fileName := "report.md", fileType := ".md"
    content := "# Report\nUsers loved the checkout flow redesign." }

/-- C8 counterexample: the claim states the Internal collector returns
exactly one finding with positive relevance for scenario C's single markdown
file and topic `"checkout flow"`. The pipeline in fact returns zero
findings for that input (0 ≠ 1). -/
theorem c8_single_markdown_file_counterexample :
    (InternalResearchAgent.analyzeResearchPipeline [c8Doc] "checkout flow" none 50).rankedFindings
      = []
  ∧ (InternalResearchAgent.analyzeResearchPipeline [c8Doc] "checkout flow" none 50).findingCount
      = 0
  ∧ (0 : Nat) ≠ 1 :=
  ⟨rfl, rfl, by decide⟩

/-- C8 (amended): for scenario C's input the Internal collector returns a
Success result with zero findings: the whole document text is 48 characters,
below the 100-character minimum of the `isRelevantContent` prefilter, so the
file is dropped before scoring; and even bypassing the prefilter, the only
topic-bearing sentence trims to 47 characters, below the >50-character
finding threshold of `generateFindings`. -/
theorem c8_short_document_filtered :
    InternalResearchAgent.isRelevantContent c8Doc.content "checkout flow" none = false
  ∧ c8Doc.content.length = 48
  ∧ InternalResearchAgent.generateFindings
      [{ fileName := "report.md", fileType := ".md", content := c8Doc.content
         relevanceScore := 1/2 }] "checkout flow" none = []
  ∧ (InternalResearchAgent.analyzeResearchPipeline [c8Doc] "checkout flow" none 50).status
      = JStatus.success :=
  ⟨rfl, rfl, rfl, rfl⟩

/-- C4: for every collector invocation that returns Success, the ranked list
(`rankedSignals` for the External collector, `rankedFindings` for the
Internal collector) is sorted in non-increasing order of `combinedScore`,
and its length is at most the configured `maxResults`. -/
theorem c4_ranking_sorted_and_truncated :
    (∀ (allSignals : List ExtSignal) (maxResults : Nat) (now : ℤ),
      ((ExternalSignalsAgent.gatherSignalsResult allSignals maxResults now).rankedSignals.Pairwise
        fun a b => b.combinedScore ≤ a.combinedScore)
      ∧ (ExternalSignalsAgent.gatherSignalsResult allSignals maxResults now).rankedSignals.length
          ≤ maxResults)
  ∧ (∀ (docs : List InternalResearchAgent.ResearchDoc) (topic : String)
        (productArea : Option String) (maxResults : Nat),
      ((InternalResearchAgent.analyzeResearchPipeline docs topic productArea maxResults).rankedFindings.Pairwise
        fun a b => b.combinedScore ≤ a.combinedScore)
      ∧ (InternalResearchAgent.analyzeResearchPipeline docs topic productArea maxResults).rankedFindings.length
          ≤ maxResults) := by
  constructor
  · intro allSignals maxResults now
    constructor
    · exact List.Pairwise.sublist (List.take_sublist _ _)
        (pairwise_sortDescBy (fun s : ExternalSignalsAgent.RankedSignal => s.combinedScore) _)
    · rw [show (ExternalSignalsAgent.gatherSignalsResult allSignals maxResults now).rankedSignals
          = (ExternalSignalsAgent.rankSignalsByRelevance allSignals now).take maxResults from rfl,
        List.length_take]
      exact min_le_left _ _
  · intro docs topic productArea maxResults
    constructor
    · exact List.Pairwise.sublist (List.take_sublist _ _)
        (pairwise_sortDescBy (fun f : InternalResearchAgent.RankedFinding => f.combinedScore) _)
    · rw [show (InternalResearchAgent.analyzeResearchPipeline docs topic productArea maxResults).rankedFindings
          = (InternalResearchAgent.rankFindings
              (InternalResearchAgent.generateFindings
                (InternalResearchAgent.processResearchFiles docs topic productArea)
                topic productArea)).take maxResults from rfl,
        List.length_take]
      exact min_le_left _ _

/-- C10: for every successful External/Internal collector result, the
reported count (`signalCount` / `findingCount`) equals the number of ranked
items before truncation, the returned list is the `maxResults`-truncation,
and whenever more items survive than `maxResults` the reported count
strictly exceeds the returned list's length. -/
theorem c10_count_precedes_truncation :
    (∀ (allSignals : List ExtSignal) (maxResults : Nat) (now : ℤ),
      (ExternalSignalsAgent.gatherSignalsResult allSignals maxResults now).signalCount
        = allSignals.length
      ∧ (ExternalSignalsAgent.gatherSignalsResult allSignals maxResults now).rankedSignals.length
          = min maxResults allSignals.length
      ∧ (maxResults < allSignals.length →
          (ExternalSignalsAgent.gatherSignalsResult allSignals maxResults now).rankedSignals.length
            < (ExternalSignalsAgent.gatherSignalsResult allSignals maxResults now).signalCount))
  ∧ (∀ (docs : List InternalResearchAgent.ResearchDoc) (topic : String)
        (productArea : Option String) (maxResults : Nat),
      (InternalResearchAgent.analyzeResearchPipeline docs topic productArea maxResults).findingCount
        = (InternalResearchAgent.generateFindings
            (InternalResearchAgent.processResearchFiles docs topic productArea)
            topic productArea).length
      ∧ (maxResults
            < (InternalResearchAgent.analyzeResearchPipeline docs topic productArea maxResults).findingCount →
          (InternalResearchAgent.analyzeResearchPipeline docs topic productArea maxResults).rankedFindings.length
            < (InternalResearchAgent.analyzeResearchPipeline docs topic productArea maxResults).findingCount)) := by
  constructor
  · intro allSignals maxResults now
    have hcount : (ExternalSignalsAgent.gatherSignalsResult allSignals maxResults now).signalCount
        = allSignals.length := by
      rw [show (ExternalSignalsAgent.gatherSignalsResult allSignals maxResults now).signalCount
          = (ExternalSignalsAgent.rankSignalsByRelevance allSignals now).length from rfl,
        ExternalSignalsAgent.rankSignalsByRelevance, length_sortDescBy, List.length_map]
    have hlen : (ExternalSignalsAgent.gatherSignalsResult allSignals maxResults now).rankedSignals.length
        = min maxResults allSignals.length := by
      rw [show (ExternalSignalsAgent.gatherSignalsResult allSignals maxResults now).rankedSignals
          = (ExternalSignalsAgent.rankSignalsByRelevance allSignals now).take maxResults from rfl,
        List.length_take, ExternalSignalsAgent.rankSignalsByRelevance, length_sortDescBy,
        List.length_map]
    refine ⟨hcount, hlen, ?_⟩
    intro hlt
    rw [hcount, hlen]
    omega
  · intro docs topic productArea maxResults
    have hcount : (InternalResearchAgent.analyzeResearchPipeline docs topic productArea maxResults).findingCount
        = (InternalResearchAgent.generateFindings
            (InternalResearchAgent.processResearchFiles docs topic productArea)
            topic productArea).length := by
      rw [show (InternalResearchAgent.analyzeResearchPipeline docs topic productArea maxResults).findingCount
          = (InternalResearchAgent.rankFindings
              (InternalResearchAgent.generateFindings
                (InternalResearchAgent.processResearchFiles docs topic productArea)
                topic productArea)).length from rfl,
        InternalResearchAgent.rankFindings, length_sortDescBy, List.length_map]
    refine ⟨hcount, ?_⟩
    intro hlt
    have hlen : (InternalResearchAgent.analyzeResearchPipeline docs topic productArea maxResults).rankedFindings.length
        = min maxResults
            (InternalResearchAgent.analyzeResearchPipeline docs topic productArea maxResults).findingCount := by
      rw [show (InternalResearchAgent.analyzeResearchPipeline docs topic productArea maxResults).rankedFindings
          = (InternalResearchAgent.rankFindings
              (InternalResearchAgent.generateFindings
                (InternalResearchAgent.processResearchFiles docs topic productArea)
                topic productArea)).take maxResults from rfl,
        List.length_take]
      rfl
    rw [hlen]
    omega

/-- C10 witness: with three gathered signals and `maxResults = 2`, the
reported `signalCount` (3) strictly exceeds the returned list length (2). -/
theorem c10_count_precedes_truncation_witness :
    (ExternalSignalsAgent.gatherSignalsResult
        [{ title := "a", content := "a", source := "s", url := "u", publishedAt := none
           relevanceScore := 1/2, metadataSimulated := false },
         { title := "b", content := "b", source := "s", url := "u", publishedAt := none
           relevanceScore := 3/4, metadataSimulated := false },
         { title := "c", content := "c", source := "s", url := "u", publishedAt := none
           relevanceScore := 1/4, metadataSimulated := false }] 2 0).rankedSignals.length
      < (ExternalSignalsAgent.gatherSignalsResult
        [{ title := "a", content := "a", source := "s", url := "u", publishedAt := none
           relevanceScore := 1/2, metadataSimulated := false },
         { title := "b", content := "b", source := "s", url := "u", publishedAt := none
           relevanceScore := 3/4, metadataSimulated := false },
         { title := "c", content := "c", source := "s", url := "u", publishedAt := none
           relevanceScore := 1/4, metadataSimulated := false }] 2 0).signalCount :=
  (c10_count_precedes_truncation.1
    [{ title := "a", content := "a", source := "s", url := "u", publishedAt := none
       relevanceScore := 1/2, metadataSimulated := false },
     { title := "b", content := "b", source := "s", url := "u", publishedAt := none
       relevanceScore := 3/4, metadataSimulated := false },
     { title := "c", content := "c", source := "s", url := "u", publishedAt := none
       relevanceScore := 1/4, metadataSimulated := false }] 2 0).2.2 (by decide)

/-- Bridge between the code's age test (`daysDiff ≤ k` on the millisecond
quotient) and the day-unit bound `m` on the integer age. -/
theorem ageDays_le_iff (a : ℤ) (k : ℚ) (m : ℤ)
    (hm : (m : ℚ) = k * (1000 * 60 * 60 * 24)) :
    ((a : ℚ) / (1000 * 60 * 60 * 24) ≤ k) ↔ a ≤ m := by
  rw [div_le_iff₀ (by norm_num : (0:ℚ) < 1000 * 60 * 60 * 24), ← hm]
  exact Int.cast_le

/-- C5: for every External signal, `combinedScore = relevanceScore × 0.7 +
recencyScore × 0.3`, where recencyScore is 1 when the signal is at most one
day old, 0.8 at most 7 days, 0.6 at most 30 days, 0.3 otherwise, and 0 when
the signal has no timestamp. -/
theorem c5_combined_score_formula (s : ExtSignal) (now : ℤ) :
    (s.publishedAt = none →
      ExternalSignalsAgent.calculateCombinedScore s now = s.relevanceScore * (7/10))
  ∧ ∀ t : ℤ, s.publishedAt = some t →
      ((now - t ≤ 1 * dayMs →
        ExternalSignalsAgent.calculateCombinedScore s now
          = s.relevanceScore * (7/10) + 1 * (3/10))
      ∧ (1 * dayMs < now - t → now - t ≤ 7 * dayMs →
        ExternalSignalsAgent.calculateCombinedScore s now
          = s.relevanceScore * (7/10) + (4/5) * (3/10))
      ∧ (7 * dayMs < now - t → now - t ≤ 30 * dayMs →
        ExternalSignalsAgent.calculateCombinedScore s now
          = s.relevanceScore * (7/10) + (3/5) * (3/10))
      ∧ (30 * dayMs < now - t →
        ExternalSignalsAgent.calculateCombinedScore s now
          = s.relevanceScore * (7/10) + (3/10) * (3/10))) := by
  have hrw : ∀ t : ℤ, s.publishedAt = some t →
      ExternalSignalsAgent.calculateCombinedScore s now
        = s.relevanceScore * (7/10) +
          (if ((now - t : ℤ) : ℚ) / (1000 * 60 * 60 * 24) ≤ 1 then (1 : ℚ)
           else if ((now - t : ℤ) : ℚ) / (1000 * 60 * 60 * 24) ≤ 7 then 4/5
           else if ((now - t : ℤ) : ℚ) / (1000 * 60 * 60 * 24) ≤ 30 then 3/5
           else 3/10) * (3/10) := by
    intro t ht
    simp only [ExternalSignalsAgent.calculateCombinedScore, ht,
      ExternalSignalsAgent.relevanceWeight, ExternalSignalsAgent.recencyWeight]
  constructor
  · intro h
    have hz : ExternalSignalsAgent.calculateCombinedScore s now
        = s.relevanceScore * (7/10) + 0 * (3/10) := by
      simp only [ExternalSignalsAgent.calculateCombinedScore, h,
        ExternalSignalsAgent.relevanceWeight, ExternalSignalsAgent.recencyWeight]
    rw [hz]; ring
  · intro t ht
    have i1 := ageDays_le_iff (now - t) 1 (1 * dayMs) (by norm_num [dayMs])
    have i7 := ageDays_le_iff (now - t) 7 (7 * dayMs) (by norm_num [dayMs])
    have i30 := ageDays_le_iff (now - t) 30 (30 * dayMs) (by norm_num [dayMs])
    refine ⟨?_, ?_, ?_, ?_⟩
    · intro hb
      rw [hrw t ht, if_pos (i1.2 hb)]
    · intro ha hb
      rw [hrw t ht, if_neg (fun hc => absurd (i1.1 hc) (not_le.2 ha)),
        if_pos (i7.2 hb)]
    · intro ha hb
      rw [hrw t ht, if_neg (fun hc => absurd (i1.1 hc) (by
          intro hle
          exact absurd ha (not_lt.2 (le_trans hle (by norm_num [dayMs]))))),
        if_neg (fun hc => absurd (i7.1 hc) (not_le.2 ha)), if_pos (i30.2 hb)]
    · intro ha
      rw [hrw t ht,
        if_neg (fun hc => absurd (i1.1 hc) (by
          intro hle
          exact absurd ha (not_lt.2 (le_trans hle (by norm_num [dayMs]))))),
        if_neg (fun hc => absurd (i7.1 hc) (by
          intro hle
          exact absurd ha (not_lt.2 (le_trans hle (by norm_num [dayMs]))))),
        if_neg (fun hc => absurd (i30.1 hc) (not_le.2 ha))]

/-- C5 witness: a signal published exactly at `now` (age 0 ≤ 1 day) with
relevance 1/2 scores `1/2 × 0.7 + 1 × 0.3`. -/
theorem c5_combined_score_formula_witness :
    ExternalSignalsAgent.calculateCombinedScore
        { title := "t", content := "c", source := "s", url := "u"
          publishedAt := some 0, relevanceScore := 1/2, metadataSimulated := false } 0
      = 1/2 * (7/10) + 1 * (3/10) :=
  ((c5_combined_score_formula
      { title := "t", content := "c", source := "s", url := "u"
        publishedAt := some 0, relevanceScore := 1/2, metadataSimulated := false } 0).2
    0 rfl).1 (by norm_num [dayMs])

/-- Helper for C6: the simulated usage generator always produces data points
(28 on the Bicep branch, 14 on the generic branch), whatever the random
draws are. -/
theorem generateSimulatedUsageData_length_pos (topic : String)
    (productArea : Option String) (now : ℤ) (rand : Nat → ℚ) :
    0 < (ProductMetricsAgent.generateSimulatedUsageData topic productArea now rand).length := by
  unfold ProductMetricsAgent.generateSimulatedUsageData
  by_cases h : ProductMetricsAgent.isBicepRelated topic = true
  · rw [if_pos h]; exact Nat.lt_of_sub_eq_succ rfl
  · rw [if_neg h]; exact Nat.lt_of_sub_eq_succ rfl

/-- Helper for C6: no simulated usage item carries a `simulated` marker in
its metadata (the generator's object literals have no metadata bag at all). -/
theorem generateSimulatedUsageData_untagged (topic : String)
    (productArea : Option String) (now : ℤ) (rand : Nat → ℚ) :
    ((ProductMetricsAgent.generateSimulatedUsageData topic productArea now rand).all
      fun it => !it.metadataSimulated) = true := by
  unfold ProductMetricsAgent.generateSimulatedUsageData
  by_cases h : ProductMetricsAgent.isBicepRelated topic = true
  · rw [if_pos h]; rfl
  · rw [if_neg h]; rfl

/-- C6 counterexample: the claim states every simulated item of a
no-credentials collector run is tagged as simulated in its metadata. The
Product collector's usage sub-source (no analytics credentials) returns a
Success outcome with 14 simulated data points of which none carries a
`simulated` marker. -/
theorem c6_untagged_product_counterexample :
    (ProductMetricsAgent.collectUsageMetrics "checkout flow" none 0 (fun _ => 1/2)).status
      = JStatus.success
  ∧ (ProductMetricsAgent.collectUsageMetrics "checkout flow" none 0 (fun _ => 1/2)).dataPoints
      = 14
  ∧ ((ProductMetricsAgent.collectUsageMetrics "checkout flow" none 0 (fun _ => 1/2)).data.any
      fun it => it.metadataSimulated) = false :=
  ⟨rfl, rfl, rfl⟩

/-- C6 (amended): with no provider credentials every modelled collector
sub-source still returns Success with a non-empty signal list, and the
External collector's simulated news/video items are tagged
`simulated: true`; but the Product collector's simulated usage items carry
no simulated marker. -/
theorem c6_no_credentials_fallback_amended (topic : String)
    (productArea : Option String) (now : ℤ) (net : SourceResult)
    (rand : Nat → ℚ) :
    (ExternalSignalsAgent.gatherNewsSignals none net topic productArea now).status
      = JStatus.success
  ∧ (ExternalSignalsAgent.gatherNewsSignals none net topic productArea now).signals.length = 3
  ∧ ((ExternalSignalsAgent.gatherNewsSignals none net topic productArea now).signals.all
      fun sig => sig.metadataSimulated) = true
  ∧ (ExternalSignalsAgent.gatherYouTubeSignals none net topic productArea now).status
      = JStatus.success
  ∧ (ExternalSignalsAgent.gatherYouTubeSignals none net topic productArea now).signals.length = 2
  ∧ ((ExternalSignalsAgent.gatherYouTubeSignals none net topic productArea now).signals.all
      fun sig => sig.metadataSimulated) = true
  ∧ (ProductMetricsAgent.collectUsageMetrics topic productArea now rand).status
      = JStatus.success
  ∧ 0 < (ProductMetricsAgent.collectUsageMetrics topic productArea now rand).dataPoints
  ∧ ((ProductMetricsAgent.collectUsageMetrics topic productArea now rand).data.all
      fun it => !it.metadataSimulated) = true :=
  ⟨rfl, rfl, rfl, rfl, rfl, rfl, rfl,
    generateSimulatedUsageData_length_pos topic productArea now rand,
    generateSimulatedUsageData_untagged topic productArea now rand⟩

/-- The 7-point series of the trend-classification scenario: first value 100
(day 0), last value 120 (day 6), listed out of date order so the date sort
matters. -/
def c9Series : List ProductMetricsAgent.MetricPoint :=
  [ { dateMs := 3 * dayMs, metric := "daily_active_users", value := 104, metadataSimulated := false },
    { dateMs := 0 * dayMs, metric := "daily_active_users", value := 100, metadataSimulated := false },
    { dateMs := 6 * dayMs, metric := "daily_active_users", value := 120, metadataSimulated := false },
    { dateMs := 1 * dayMs, metric := "daily_active_users", value := 103, metadataSimulated := false },
    { dateMs := 5 * dayMs, metric := "daily_active_users", value := 115, metadataSimulated := false },
    { dateMs := 2 * dayMs, metric := "daily_active_users", value := 108, metadataSimulated := false },
    { dateMs := 4 * dayMs, metric := "daily_active_users", value := 110, metadataSimulated := false } ]

/-- C9: every metric group with more than one data point yields a trend; its
`percentChange` is `(last − first) / first × 100` over the date-sorted series
(rounded to two decimals in the reported field) and its direction is
`increasing` above 5, `decreasing` below −5, `stable` in between; and the
concrete 7-point series from 100 to 120 is classified `increasing` with
`percentChange = 20`. -/
theorem c9_trend_extraction :
    (∀ (data : List ProductMetricsAgent.MetricPoint) (sourceType metric : String),
      metric ∈ ProductMetricsAgent.metricKeys data →
      1 < (data.filter fun it => it.metric == metric).length →
      ProductMetricsAgent.mkTrend metric sourceType
          (data.filter fun it => it.metric == metric)
        ∈ ProductMetricsAgent.extractTrends data sourceType)
  ∧ (∀ (metric sourceType : String) (items : List ProductMetricsAgent.MetricPoint)
        (f l : ℚ),
      ((sortAscBy (fun it => it.dateMs) items).head?.map fun it => it.value).getD 0 = f →
      ((sortAscBy (fun it => it.dateMs) items).getLast?.map fun it => it.value).getD 0 = l →
      f ≠ 0 →
      ((ProductMetricsAgent.mkTrend metric sourceType items).percentChange
          = ProductMetricsAgent.jsMathRound2 ((l - f) / f * 100)
        ∧ (5 < (l - f) / f * 100 →
            (ProductMetricsAgent.mkTrend metric sourceType items).direction = "increasing")
        ∧ ((l - f) / f * 100 < -5 →
            (ProductMetricsAgent.mkTrend metric sourceType items).direction = "decreasing")
        ∧ (-5 ≤ (l - f) / f * 100 → (l - f) / f * 100 ≤ 5 →
            (ProductMetricsAgent.mkTrend metric sourceType items).direction = "stable")))
  ∧ ProductMetricsAgent.extractTrends c9Series "usage_metrics"
      = [{ metric := "daily_active_users", sourceType := "usage_metrics"
           direction := "increasing", percentChange := 20, dataPoints := 7 }] := by
  refine ⟨?_, ?_, ?_⟩
  · intro data sourceType metric hmem hlen
    refine List.mem_filterMap.2 ⟨metric, hmem, ?_⟩
    show (if 1 < (data.filter fun it => it.metric == metric).length then
        some (ProductMetricsAgent.mkTrend metric sourceType
          (data.filter fun it => it.metric == metric))
      else none)
      = some (ProductMetricsAgent.mkTrend metric sourceType
          (data.filter fun it => it.metric == metric))
    rw [if_pos hlen]
  · intro metric sourceType items f l hf hl hf0
    have hm : ProductMetricsAgent.mkTrend metric sourceType items
        = { metric := metric, sourceType := sourceType
            direction :=
              if 5 < (l - f) / f * 100 then "increasing"
              else if (l - f) / f * 100 < -5 then "decreasing" else "stable"
            percentChange := ProductMetricsAgent.jsMathRound2 ((l - f) / f * 100)
            dataPoints := items.length } := by
      simp only [ProductMetricsAgent.mkTrend]
      rw [hf, hl, if_pos hf0]
    refine ⟨by rw [hm], ?_, ?_, ?_⟩
    · intro h5
      rw [hm]
      show (if 5 < (l - f) / f * 100 then "increasing"
        else if (l - f) / f * 100 < -5 then "decreasing" else "stable") = "increasing"
      rw [if_pos h5]
    · intro hneg
      rw [hm]
      show (if 5 < (l - f) / f * 100 then "increasing"
        else if (l - f) / f * 100 < -5 then "decreasing" else "stable") = "decreasing"
      rw [if_neg (not_lt.2 (le_of_lt (lt_of_lt_of_le hneg (by norm_num)))),
        if_pos hneg]
    · intro hge hle
      rw [hm]
      show (if 5 < (l - f) / f * 100 then "increasing"
        else if (l - f) / f * 100 < -5 then "decreasing" else "stable") = "stable"
      rw [if_neg (not_lt.2 hle), if_neg (not_lt.2 hge)]
  · have hround : ProductMetricsAgent.jsMathRound2 (((120:ℚ) - 100) / 100 * 100) = 20 := by
      have hb : (((((120:ℚ) - 100) / 100 * 100) * 100 + 1/2 : ℚ)).floor
          = ⌊(((((120:ℚ) - 100) / 100 * 100) * 100 + 1/2 : ℚ))⌋ :=
        (Rat.floor_def' _).trans Rat.floor_def.symm
      unfold ProductMetricsAgent.jsMathRound2
      rw [hb, show ((((120:ℚ) - 100) / 100 * 100) * 100 + 1/2 : ℚ) = 4001/2 by norm_num]
      rw [show ⌊(4001/2 : ℚ)⌋ = 2000 by rw [Int.floor_eq_iff]; norm_num]
      norm_num
    rw [show ProductMetricsAgent.extractTrends c9Series "usage_metrics"
        = [ProductMetricsAgent.mkTrend "daily_active_users" "usage_metrics"
            (c9Series.filter fun it => it.metric == "daily_active_users")] from rfl]
    simp only [ProductMetricsAgent.mkTrend]
    rw [show ((sortAscBy (fun it => it.dateMs)
          (c9Series.filter fun it => it.metric == "daily_active_users")).head?.map
            fun it => it.value).getD 0 = (100:ℚ) from rfl,
      show ((sortAscBy (fun it => it.dateMs)
          (c9Series.filter fun it => it.metric == "daily_active_users")).getLast?.map
            fun it => it.value).getD 0 = (120:ℚ) from rfl,
      if_pos (show (100:ℚ) ≠ 0 by norm_num),
      if_pos (show (5:ℚ) < ((120:ℚ) - 100) / 100 * 100 by norm_num),
      hround,
      show (c9Series.filter fun it => it.metric == "daily_active_users").length = 7 from rfl]

/-- C9 witness: the general statements applied to the concrete 7-point
series (membership in the extracted trends, and the percent-change formula
with first value 100 and last value 120). -/
theorem c9_trend_extraction_witness :
    ProductMetricsAgent.mkTrend "daily_active_users" "usage_metrics"
        (c9Series.filter fun it => it.metric == "daily_active_users")
      ∈ ProductMetricsAgent.extractTrends c9Series "usage_metrics"
  ∧ (ProductMetricsAgent.mkTrend "daily_active_users" "usage_metrics" c9Series).percentChange
      = ProductMetricsAgent.jsMathRound2 ((120 - 100) / 100 * 100) :=
  ⟨c9_trend_extraction.1 c9Series "usage_metrics" "daily_active_users"
      (by decide) (by decide),
    (c9_trend_extraction.2.1 "daily_active_users" "usage_metrics" c9Series 100 120
      (by decide) (by decide) (by decide)).1⟩
